import Mathlib

/-!
Shallow embedding of the voice-inbox-server request-handling code
(src/index.ts) and proofs about its behavioural contracts.

The server is a stateless HTTP service with three routes (OPTIONS
preflight, GET / health check, POST /convert) plus a 404 fallback.
The convert operation validates a JSON body and assembles a note
document (frontmatter + trimmed text) and a timestamp filename.

Modelling choices:
  * JSON/JavaScript values are the inductive `JsonVal`.  JSON numbers
    are modelled as integers; the code only ever uses a number for its
    truthiness and its decimal rendering, so fractional values add
    nothing the claims need.
  * Ambient wall-clock time is a `Clock` record holding both the UTC
    components read through `Date.prototype.toISOString` and the local
    components read through `getFullYear`/`getMonth`/`getDate`/
    `getHours`/`getMinutes` (with `getMonth` 0-based, as in JS).
  * `await request.json()` is modelled as `Except String JsonVal`:
    `.error msg` is the thrown parse error carrying its message, which
    the catch block in `handleConvert` turns into a failure response.
  * Property access `body.text` on the parsed value is `getProp`; on
    `null` it throws a TypeError (modelled with a representative
    runtime message whose exact text no theorem depends on), on any
    non-object non-null value it yields `undefined` (modelled `none`).
  * The `Response` values built by `handler` are modelled structurally:
    status code, optional JSON body (the value handed to
    `JSON.stringify`), and the header list in construction order.
-/

/-- A JSON / JavaScript value as produced by `JSON.parse`. -/
inductive JsonVal where
  | jnull : JsonVal
  | jbool : Bool → JsonVal
  | jnum : Int → JsonVal
  | jstr : String → JsonVal
  | jarr : List JsonVal → JsonVal
  | jobj : List (String × JsonVal) → JsonVal

/-- JavaScript truthiness of a value: `null`, `false`, `0` and the
empty string are falsy; arrays and objects are always truthy. -/
def truthy : JsonVal → Bool
  | .jnull => false
  | .jbool b => b
  | .jnum n => if n = 0 then false else true
  | .jstr s => if s = "" then false else true
  | .jarr _ => true
  | .jobj _ => true

mutual

/-- `Array.prototype.join` with separator "," (the behaviour of
`String(arr)`). -/
def jsArrJoin : List JsonVal → String
  | [] => ""
  | [x] => jsArrElem x
  | x :: y :: xs => jsArrElem x ++ "," ++ jsArrJoin (y :: xs)

/-- One array element under `join`: `null` renders as the empty
string, every other value as under `String(v)`. -/
def jsArrElem : JsonVal → String
  | .jnull => ""
  | .jbool b => if b then "true" else "false"
  | .jnum n => toString n
  | .jstr s => s
  | .jarr xs => jsArrJoin xs
  | .jobj _ => "[object Object]"

end

/-- JavaScript string conversion `String(v)` as used by template
literal interpolation: objects render as "[object Object]", arrays
join their elements with commas. -/
def jsToString : JsonVal → String
  | .jnull => "null"
  | .jbool b => if b then "true" else "false"
  | .jnum n => toString n
  | .jstr s => s
  | .jarr xs => jsArrJoin xs
  | .jobj _ => "[object Object]"

/-- Object property lookup; JS object literals and `JSON.parse` let a
later duplicate key win, so the fold keeps the last match. -/
def lookupField (fields : List (String × JsonVal)) (key : String) : Option JsonVal :=
  fields.foldl (fun acc p => if p.1 = key then some p.2 else acc) none

/-- Property access `v.key`.  On `null` the JS runtime throws a
TypeError (message modelled by a representative runtime string; no
theorem depends on its text); on a non-object it evaluates to
`undefined` (here `none`); on an object it is field lookup. -/
def getProp : JsonVal → String → Except String (Option JsonVal)
  | .jnull, key => .error ("null is not an object (evaluating 'body." ++ key ++ "')")
  | .jobj fields, key => .ok (lookupField fields key)
  | _, _ => .ok none

/-- The ambient wall-clock readings a single request can observe.
`utc*` fields are the components printed by `toISOString` (month and
day 1-based); the `get*` fields are the local-time accessors of the
same instant (`getMonth` 0-based, as in JS). -/
structure Clock where
  utcYear : Nat
  utcMonth : Nat
  utcDay : Nat
  utcHours : Nat
  utcMinutes : Nat
  utcSeconds : Nat
  utcMillis : Nat
  getFullYear : Nat
  getMonth : Nat
  getDate : Nat
  getHours : Nat
  getMinutes : Nat

/-- Field ranges of a clock reading an actual `Date` can produce. -/
def Clock.Valid (c : Clock) : Prop :=
  1 ≤ c.utcMonth ∧ c.utcMonth ≤ 12 ∧ 1 ≤ c.utcDay ∧ c.utcDay ≤ 31 ∧
  c.utcHours < 24 ∧ c.utcMinutes < 60 ∧ c.utcSeconds < 60 ∧ c.utcMillis < 1000 ∧
  c.getMonth < 12 ∧ 1 ≤ c.getDate ∧ c.getDate ≤ 31 ∧
  c.getHours < 24 ∧ c.getMinutes < 60 ∧
  1000 ≤ c.getFullYear ∧ c.getFullYear ≤ 9999 ∧
  1000 ≤ c.utcYear ∧ c.utcYear ≤ 9999

/-- `String.prototype.padStart(n, ch)`: prepend `ch` until the length
is at least `n`. -/
def padStart (n : Nat) (ch : Char) (s : String) : String :=
  String.mk (List.replicate (n - s.data.length) ch) ++ s

/-- `Date.prototype.toISOString` for a clock reading:
`YYYY-MM-DDTHH:mm:ss.sssZ` built from the UTC components. -/
def toISOString (c : Clock) : String :=
  padStart 4 '0' (Nat.repr c.utcYear) ++ "-" ++
  padStart 2 '0' (Nat.repr c.utcMonth) ++ "-" ++
  padStart 2 '0' (Nat.repr c.utcDay) ++ "T" ++
  padStart 2 '0' (Nat.repr c.utcHours) ++ ":" ++
  padStart 2 '0' (Nat.repr c.utcMinutes) ++ ":" ++
  padStart 2 '0' (Nat.repr c.utcSeconds) ++ "." ++
  padStart 3 '0' (Nat.repr c.utcMillis) ++ "Z"

/-- The first segment of a character list before the first 'T'. -/
def takeUntilT : List Char → List Char
  | [] => []
  | ch :: rest => if ch = 'T' then [] else ch :: takeUntilT rest

/-- `s.split('T')[0]`: the prefix of `s` before the first 'T' (all of
`s` when no 'T' occurs). -/
def dateFromIso (s : String) : String :=
  String.mk (takeUntilT s.data)

/-- The JavaScript whitespace characters `String.prototype.trim`
strips (the ones expressible here; the exotic Unicode space characters
never occur in the claims). -/
def isJsWhitespace (ch : Char) : Bool :=
  ch = ' ' || ch = '\t' || ch = '\n' || ch = '\r' ||
  ch = '\x0b' || ch = '\x0c' || ch = ' '

/-- `String.prototype.trim`: drop leading and trailing whitespace. -/
def jsTrim (s : String) : String :=
  String.mk (((s.data.dropWhile isJsWhitespace).reverse.dropWhile isJsWhitespace).reverse)

/-- `generateTimestamp` from src/index.ts: local-time display
timestamp "YYYY-MM-DD H-MMam|pm". -/
def generateTimestamp (c : Clock) : String :=
  let year := c.getFullYear
  let month := padStart 2 '0' (Nat.repr (c.getMonth + 1))
  let day := padStart 2 '0' (Nat.repr c.getDate)
  let hours0 := c.getHours
  let minutes := padStart 2 '0' (Nat.repr c.getMinutes)
  let ampm := if 12 ≤ hours0 then "pm" else "am"
  let hours1 := hours0 % 12
  let hours2 := if hours1 = 0 then 12 else hours1
  Nat.repr year ++ "-" ++ month ++ "-" ++ day ++ " " ++
    Nat.repr hours2 ++ "-" ++ minutes ++ ampm

/-- `generateFilename` from src/index.ts: emoji marker plus the
timestamp. -/
def generateFilename (c : Clock) : String :=
  "🎤 " ++ generateTimestamp c

/-- `generateFrontmatter` from src/index.ts: the fixed-key frontmatter
block; `today` is `new Date().toISOString().split('T')[0]`. -/
def generateFrontmatter (source : String) (c : Clock) : String :=
  let today := dateFromIso (toISOString c)
  "---\ntype: transcription\ncreated: " ++ today ++
  "\nsource: " ++ source ++
  "\ntemplate_version: 1\nareas: []\nprojects: []\nsummary: \"\"\n---"

/-- `generateNoteContent` from src/index.ts: frontmatter, blank line,
text, trailing newline. -/
def generateNoteContent (text : String) (source : String) (c : Clock) : String :=
  generateFrontmatter source c ++ "\n\n" ++ text ++ "\n"

/-- The outcome of `handleConvert`: the success object
`{success:true, noteContent, filename}` or the failure object
`{success:false, error}`. -/
inductive ConvertResult where
  | success (noteContent : String) (filename : String) : ConvertResult
  | failure (error : String) : ConvertResult
deriving DecidableEq, Repr

/-- The error message for an absent / non-string / falsy `text`. -/
def missingTextMsg : String := "Missing or invalid \"text\" field"

/-- The error message for text that trims to the empty string. -/
def emptyTextMsg : String := "Text cannot be empty"

/-- `handleConvert` from src/index.ts.  The argument is the result of
`await request.json()` (`.error` = the thrown parse error's message);
the try/catch turns every thrown error into a failure value. -/
def handleConvert (parsed : Except String JsonVal) (c : Clock) : ConvertResult :=
  match parsed with
  | .error msg => .failure msg
  | .ok body =>
    match getProp body "text" with
    | .error msg => .failure msg
    | .ok textProp =>
      match textProp with
      | some (.jstr s) =>
        if s = "" then .failure missingTextMsg
        else
          let text := jsTrim s
          if text.length = 0 then .failure emptyTextMsg
          else
            match getProp body "source" with
            | .error msg => .failure msg
            | .ok sourceProp =>
              let source : JsonVal :=
                match sourceProp with
                | some v => if truthy v then v else .jstr "superwhisper"
                | none => .jstr "superwhisper"
              .success (generateNoteContent text (jsToString source) c) (generateFilename c)
      | _ => .failure missingTextMsg

/-- The JSON value `JSON.stringify` receives for a convert outcome. -/
def convertResultToJson : ConvertResult → JsonVal
  | .success nc fn =>
      .jobj [("success", .jbool true), ("noteContent", .jstr nc), ("filename", .jstr fn)]
  | .failure e =>
      .jobj [("success", .jbool false), ("error", .jstr e)]

/-- The parts of an incoming request the handler inspects: method,
pathname of the URL, and the result of parsing the body as JSON. -/
structure RequestModel where
  method : String
  pathname : String
  jsonBody : Except String JsonVal

/-- A response: status code, the JSON value handed to
`JSON.stringify` (none for the body-less preflight), and the header
list in construction order. -/
structure ResponseModel where
  status : Nat
  body : Option JsonVal
  headers : List (String × String)

/-- The CORS headers attached to every response. -/
def corsHeaders : List (String × String) :=
  [("Access-Control-Allow-Origin", "*"),
   ("Access-Control-Allow-Methods", "GET, POST, OPTIONS"),
   ("Access-Control-Allow-Headers", "Content-Type")]

/-- The health-check body `{status, service, timestamp}`. -/
def healthBody (c : Clock) : JsonVal :=
  .jobj [("status", .jstr "ok"), ("service", .jstr "voice-inbox-server"),
         ("timestamp", .jstr (toISOString c))]

/-- The 404 body `{success:false, error:"Not found"}`. -/
def notFoundBody : JsonVal :=
  .jobj [("success", .jbool false), ("error", .jstr "Not found")]

/-- `handler` from src/index.ts: dispatch on method and pathname. -/
def handler (req : RequestModel) (c : Clock) : ResponseModel :=
  if req.method = "OPTIONS" then
    { status := 204, body := none, headers := corsHeaders }
  else if req.pathname = "/" ∧ req.method = "GET" then
    { status := 200, body := some (healthBody c),
      headers := ("Content-Type", "application/json") :: corsHeaders }
  else if req.pathname = "/convert" ∧ req.method = "POST" then
    let result := handleConvert req.jsonBody c
    { status := match result with | .success _ _ => 200 | .failure _ => 400,
      body := some (convertResultToJson result),
      headers := ("Content-Type", "application/json") :: corsHeaders }
  else
    { status := 404, body := some notFoundBody,
      headers := ("Content-Type", "application/json") :: corsHeaders }

/-- `const PORT = process.env.PORT || 3000` from src/index.ts: the
string value of the environment variable when set and non-empty,
otherwise the numeric default. -/
def PORT (envPort : Option String) : String ⊕ Nat :=
  match envPort with
  | some s => if s = "" then .inr 3000 else .inl s
  | none => .inr 3000

/-! ### Spec-side definitions

The following definitions follow the words of the specification, not
the source; theorems below compare the source-derived definitions
against them. -/

/-- Modelled from the spec: the server's current UTC calendar date in
ISO `YYYY-MM-DD` form, assembled directly from the clock's UTC
components. -/
def specDate (c : Clock) : String :=
  padStart 4 '0' (Nat.repr c.utcYear) ++ "-" ++
  padStart 2 '0' (Nat.repr c.utcMonth) ++ "-" ++
  padStart 2 '0' (Nat.repr c.utcDay)

/-- Modelled from the spec: the local calendar date as it appears in
the filename, `YYYY-MM-DD` from the local accessors. -/
def specLocalDate (c : Clock) : String :=
  Nat.repr c.getFullYear ++ "-" ++
  padStart 2 '0' (Nat.repr (c.getMonth + 1)) ++ "-" ++
  padStart 2 '0' (Nat.repr c.getDate)

/-- Modelled from the spec: the 12-hour clock hour, in [1,12]. -/
def specHour12 (h : Nat) : Nat :=
  if h % 12 = 0 then 12 else h % 12

/-- Modelled from the spec: the lowercase meridiem suffix. -/
def specMeridiem (h : Nat) : String :=
  if 12 ≤ h then "pm" else "am"

/-- Modelled from the spec: the full filename pattern
`<emoji> YYYY-MM-DD H-MMam|pm` over local time. -/
def specFilename (c : Clock) : String :=
  "🎤 " ++ specLocalDate c ++ " " ++
  Nat.repr (specHour12 c.getHours) ++ "-" ++
  padStart 2 '0' (Nat.repr c.getMinutes) ++ specMeridiem c.getHours

/-- Modelled from the spec: the note document with fixed frontmatter
keys in order, a blank line, the body text, and a trailing newline. -/
def specNoteContent (c : Clock) (src : String) (text : String) : String :=
  "---\ntype: transcription\ncreated: " ++ specDate c ++
  "\nsource: " ++ src ++
  "\ntemplate_version: 1\nareas: []\nprojects: []\nsummary: \"\"\n---" ++
  "\n\n" ++ text ++ "\n"

/-- Modelled from the spec: the source string used in the frontmatter,
the request's value when present and truthy, else the default. -/
def resolvedSource : Option JsonVal → String
  | some v => if truthy v then jsToString v else "superwhisper"
  | none => "superwhisper"

/-- Boolean list-prefix test (used to state substring containment
without relying on byte-position string primitives). -/
def isPre : List Char → List Char → Bool
  | [], _ => true
  | _ :: _, [] => false
  | a :: as, b :: bs => a == b && isPre as bs

/-- Boolean substring containment: some suffix of `s` starts with
`pat`. -/
def strContains (s pat : String) : Bool :=
  (List.range (s.data.length + 1)).any (fun i => isPre pat.data (s.data.drop i))

/-- A concrete clock reading used by concrete instances: the UTC
instant 2026-01-29T00:30:00.000Z, read in a local zone at UTC-6 where
it is 2026-01-28 18:30. -/
def testClock : Clock :=
  { utcYear := 2026, utcMonth := 1, utcDay := 29, utcHours := 0, utcMinutes := 30,
    utcSeconds := 0, utcMillis := 0, getFullYear := 2026, getMonth := 0,
    getDate := 28, getHours := 18, getMinutes := 30 }

/-! ### Helper lemmas -/

/-- Every character `Nat.toDigitsCore` can add to the accumulator is a
decimal digit. -/
theorem toDigitsCore_digits (f : Nat) :
    ∀ (n : Nat) (ds : List Char), (∀ ch ∈ ds, ch.isDigit = true) →
      ∀ ch ∈ Nat.toDigitsCore 10 f n ds, ch.isDigit = true := by
  induction f with
  | zero =>
    intro n ds hds ch hch
    simpa [Nat.toDigitsCore] using hds ch (by simpa [Nat.toDigitsCore] using hch)
  | succ f ih =>
    intro n ds hds ch hch
    have hd : (Nat.digitChar (n % 10)).isDigit = true := by
      have h10 : n % 10 < 10 := Nat.mod_lt _ (by decide)
      interval_cases h : (n % 10) <;> decide
    simp only [Nat.toDigitsCore] at hch
    by_cases hz : n / 10 = 0
    · simp only [hz, if_pos rfl] at hch
      rcases List.mem_cons.mp hch with h | h
      · simpa [h] using hd
      · exact hds ch h
    · simp only [if_neg hz] at hch
      refine ih (n / 10) (Nat.digitChar (n % 10) :: ds) ?_ ch hch
      intro ch2 hch2
      rcases List.mem_cons.mp hch2 with h | h
      · simpa [h] using hd
      · exact hds ch2 h

/-- Every character of the decimal representation of a natural number
is a digit. -/
theorem repr_chars_digit (n : Nat) : ∀ ch ∈ (Nat.repr n).data, ch.isDigit = true := by
  intro ch hch
  refine toDigitsCore_digits (n + 1) n [] (by intro ch2 h; cases h) ch ?_
  simpa [Nat.repr, Nat.toDigits, List.asString] using hch

/-- 'T' never occurs in the decimal representation of a natural
number. -/
theorem noT_repr (n : Nat) : 'T' ∉ (Nat.repr n).data := by
  intro h
  have := repr_chars_digit n 'T' h
  simp [Char.isDigit] at this

/-- `takeUntilT` stops exactly at the first 'T'. -/
theorem takeUntilT_append (l r : List Char) (h : 'T' ∉ l) :
    takeUntilT (l ++ 'T' :: r) = l := by
  induction l with
  | nil => simp [takeUntilT]
  | cons a as ih =>
    have ha : a ≠ 'T' := by
      intro heq
      exact h (by simp [heq])
    have has : 'T' ∉ as := by
      intro hmem
      exact h (List.mem_cons_of_mem _ hmem)
    simp [takeUntilT, List.cons_append, ha, ih has]

/-- 'T' does not occur in the date part of the ISO string. -/
theorem noT_specDate (c : Clock) : 'T' ∉ (specDate c).data := by
  have h1 := noT_repr c.utcYear
  have h2 := noT_repr c.utcMonth
  have h3 := noT_repr c.utcDay
  simp [specDate, padStart, String.data_append, List.mem_append, List.mem_replicate,
    h1, h2, h3]

/-- `new Date().toISOString().split('T')[0]` is exactly the UTC date
`YYYY-MM-DD`. -/
theorem dateFromIso_toISOString (c : Clock) :
    dateFromIso (toISOString c) = specDate c := by
  have hdata : (toISOString c).data =
      (specDate c).data ++ 'T' ::
        (padStart 2 '0' (Nat.repr c.utcHours) ++ ":" ++
         padStart 2 '0' (Nat.repr c.utcMinutes) ++ ":" ++
         padStart 2 '0' (Nat.repr c.utcSeconds) ++ "." ++
         padStart 3 '0' (Nat.repr c.utcMillis) ++ "Z").data := by
    simp [toISOString, specDate, String.data_append]
  rw [dateFromIso, hdata, takeUntilT_append _ _ (noT_specDate c)]

/-- The assembled note content equals its spec-side description for
any source string and body text. -/
theorem generateNoteContent_spec (t src : String) (c : Clock) :
    generateNoteContent t src c = specNoteContent c src t := by
  simp only [generateNoteContent, generateFrontmatter, specNoteContent,
    dateFromIso_toISOString]

/-- The source value the code interpolates is `resolvedSource`. -/
theorem jsToString_resolved (srcOpt : Option JsonVal) :
    jsToString (match srcOpt with
      | some v => if truthy v then v else .jstr "superwhisper"
      | none => .jstr "superwhisper") = resolvedSource srcOpt := by
  cases srcOpt with
  | none => simp [resolvedSource, jsToString]
  | some v =>
    by_cases h : truthy v <;> simp [resolvedSource, h, jsToString]

/-- The generated filename equals its spec-side description. -/
theorem generateFilename_spec (c : Clock) :
    generateFilename c = specFilename c := by
  apply String.ext
  simp [generateFilename, generateTimestamp, specFilename, specLocalDate,
    specHour12, specMeridiem, String.data_append, List.append_assoc]

/-- Forward evaluation of `handleConvert` on an accepted request. -/
theorem handleConvert_success_eq (body : JsonVal) (s : String)
    (srcOpt : Option JsonVal) (c : Clock)
    (ht : getProp body "text" = .ok (some (.jstr s)))
    (hs : getProp body "source" = .ok srcOpt)
    (hne : s ≠ "") (htr : jsTrim s ≠ "") :
    handleConvert (.ok body) c =
      .success (specNoteContent c (resolvedSource srcOpt) (jsTrim s)) (specFilename c) := by
  have hlen : ¬ (jsTrim s).length = 0 := by
    intro h0
    exact htr (String.ext (List.length_eq_zero.mp h0))
  simp only [handleConvert, ht, hs, if_neg hne, if_neg hlen]
  rw [jsToString_resolved, generateNoteContent_spec, generateFilename_spec]

/-- Inversion: a successful convert pins the note content, the
filename, and the shape of the request. -/
theorem handleConvert_success_char (body : JsonVal) (s : String)
    (srcOpt : Option JsonVal) (c : Clock) (nc fn : String)
    (ht : getProp body "text" = .ok (some (.jstr s)))
    (hs : getProp body "source" = .ok srcOpt)
    (hres : handleConvert (.ok body) c = .success nc fn) :
    nc = specNoteContent c (resolvedSource srcOpt) (jsTrim s) ∧
    fn = specFilename c ∧ s ≠ "" ∧ jsTrim s ≠ "" := by
  by_cases hne : s = ""
  · rw [handleConvert] at hres
    simp [ht, hne] at hres
  · by_cases htr : jsTrim s = ""
    · rw [handleConvert] at hres
      have hlen : (jsTrim s).length = 0 := by
        rw [htr]
        rfl
      simp [ht, hne, hlen] at hres
    · rw [handleConvert_success_eq body s srcOpt c ht hs hne htr] at hres
      have h1 := (ConvertResult.success.injEq _ _ _ _).mp hres.symm
      exact ⟨h1.1, h1.2, hne, htr⟩

/-- A successful convert's filename is always `generateFilename` of
the ambient clock, whatever the request contained. -/
theorem handleConvert_filename (parsed : Except String JsonVal) (c : Clock)
    (nc fn : String) (hres : handleConvert parsed c = .success nc fn) :
    fn = generateFilename c := by
  cases parsed with
  | error m => simp [handleConvert] at hres
  | ok body =>
    rw [handleConvert] at hres
    cases h1 : getProp body "text" with
    | error m => simp [h1] at hres
    | ok tOpt =>
      cases tOpt with
      | none => simp [h1] at hres
      | some v =>
        cases v with
        | jstr s =>
          by_cases hne : s = ""
          · simp [h1, hne] at hres
          · by_cases hlen : (jsTrim s).length = 0
            · simp [h1, hne, hlen] at hres
            · cases h2 : getProp body "source" with
              | error m => simp [h1, hne, hlen, h2] at hres
              | ok srcOpt =>
                simp only [h1, hne, if_neg hne, hlen, if_neg hlen, h2] at hres
                exact ((ConvertResult.success.injEq _ _ _ _).mp hres.symm).2
        | jnull => simp [h1] at hres
        | jbool b => simp [h1] at hres
        | jnum n => simp [h1] at hres
        | jarr xs => simp [h1] at hres
        | jobj fs => simp [h1] at hres

/-! ### Claim theorems -/

/-- C1 counterexample: the body `{"text": ""}` has a `text` field that
is a string and trims to the empty string, yet the code (via the JS
falsiness of the empty string in `!body.text`) returns the
missing-text error, whose message does not contain "empty" as the
claim requires. -/
theorem C1_counterexample :
    handleConvert (.ok (.jobj [("text", .jstr "")])) testClock = .failure missingTextMsg ∧
    strContains missingTextMsg "empty" = false := by
  refine ⟨?_, ?_⟩ <;> decide

/-- C1 (amended): for a JSON body on which the `text` access does not
throw, a `text` field that is absent, not a string, or the empty
string yields the 400 failure whose message contains "text";
otherwise a nonempty string `text` trimming to the empty string
yields the 400 failure whose message contains "empty"; the checks
apply in this order. -/
theorem C1_validation_order (body : JsonVal) (tOpt : Option JsonVal) (c : Clock)
    (h : getProp body "text" = .ok tOpt) :
    ((∀ s, tOpt = some (.jstr s) → s = "") →
      handleConvert (.ok body) c = .failure missingTextMsg ∧
        strContains missingTextMsg "text" = true) ∧
    (∀ s, tOpt = some (.jstr s) → s ≠ "" → jsTrim s = "" →
      handleConvert (.ok body) c = .failure emptyTextMsg ∧
        strContains emptyTextMsg "empty" = true) := by
  constructor
  · intro hbad
    refine ⟨?_, by decide⟩
    rw [handleConvert, h]
    cases tOpt with
    | none => rfl
    | some v =>
      cases v with
      | jstr s =>
        have hs : s = "" := hbad s rfl
        simp [hs]
      | jnull => rfl
      | jbool b => rfl
      | jnum n => rfl
      | jarr xs => rfl
      | jobj fs => rfl
  · intro s hset hne htr
    subst hset
    refine ⟨?_, by decide⟩
    rw [handleConvert, h]
    have hlen : (jsTrim s).length = 0 := by
      rw [htr]
      rfl
    simp [hne, hlen]

/-- C1 witness: an absent `text` gives the "text" error, and a
whitespace-only `text` gives the "empty" error. -/
theorem C1_validation_order_witness :
    (handleConvert (.ok (.jobj [("source", .jstr "x")])) testClock = .failure missingTextMsg ∧
      strContains missingTextMsg "text" = true) ∧
    (handleConvert (.ok (.jobj [("text", .jstr "\t\n")])) testClock = .failure emptyTextMsg ∧
      strContains emptyTextMsg "empty" = true) :=
  ⟨(C1_validation_order (.jobj [("source", .jstr "x")]) none testClock rfl).1 (by simp),
   (C1_validation_order (.jobj [("text", .jstr "\t\n")]) (some (.jstr "\t\n")) testClock
      rfl).2 "\t\n" rfl (by decide) (by decide)⟩

/-- C2: every successful convert's noteContent is exactly the
fixed-key frontmatter block (type, created as the ISO date assembled
from the clock, source, template_version, areas, projects, summary, in
that order), a blank line, the trimmed input text, and a trailing
newline. -/
theorem C2_note_content (body : JsonVal) (s : String) (srcOpt : Option JsonVal)
    (c : Clock) (nc fn : String)
    (ht : getProp body "text" = .ok (some (.jstr s)))
    (hs : getProp body "source" = .ok srcOpt)
    (hres : handleConvert (.ok body) c = .success nc fn) :
    nc = specNoteContent c (resolvedSource srcOpt) (jsTrim s) :=
  (handleConvert_success_char body s srcOpt c nc fn ht hs hres).1

/-- C2 witness: the concrete request `{"text":"  hi there  "}` at the
test clock. -/
theorem C2_note_content_witness :
    "---\ntype: transcription\ncreated: 2026-01-29\nsource: superwhisper\ntemplate_version: 1\nareas: []\nprojects: []\nsummary: \"\"\n---\n\nhi there\n" =
      specNoteContent testClock (resolvedSource none) (jsTrim "  hi there  ") :=
  C2_note_content (.jobj [("text", .jstr "  hi there  ")]) "  hi there  " none testClock
    "---\ntype: transcription\ncreated: 2026-01-29\nsource: superwhisper\ntemplate_version: 1\nareas: []\nprojects: []\nsummary: \"\"\n---\n\nhi there\n"
    "🎤 2026-01-28 6-30pm" rfl rfl (by decide)

/-- C3: at every clock reading with in-range hours and minutes, the
filename is the emoji marker, a space, the local date, a space, an
hour in [1,12] rendered with no leading zero, a hyphen, two-digit
zero-padded minutes and a lowercase am/pm suffix; and the filename of
every successful convert is a function of the clock alone, whatever
the request contained. -/
theorem C3_filename_format (c : Clock) (hh : c.getHours < 24) (hm : c.getMinutes < 60) :
    generateFilename c = specFilename c ∧
    1 ≤ specHour12 c.getHours ∧ specHour12 c.getHours ≤ 12 ∧
    isPre ['0'] (Nat.repr (specHour12 c.getHours)).data = false ∧
    (padStart 2 '0' (Nat.repr c.getMinutes)).length = 2 ∧
    (specMeridiem c.getHours = "am" ∨ specMeridiem c.getHours = "pm") ∧
    (∀ parsed nc fn, handleConvert parsed c = .success nc fn → fn = generateFilename c) := by
  refine ⟨generateFilename_spec c, ?_, ?_, ?_, ?_, ?_, ?_⟩
  · by_cases h0 : c.getHours % 12 = 0
    · simp [specHour12, h0]
    · simp only [specHour12, if_neg h0]
      omega
  · by_cases h0 : c.getHours % 12 = 0
    · simp [specHour12, h0]
    · simp only [specHour12, if_neg h0]
      omega
  · have hgen : ∀ x < 24, isPre ['0'] (Nat.repr (specHour12 x)).data = false := by decide
    exact hgen c.getHours hh
  · have hgen : ∀ m < 60, (padStart 2 '0' (Nat.repr m)).length = 2 := by decide
    exact hgen c.getMinutes hm
  · by_cases h12 : 12 ≤ c.getHours
    · right
      simp [specMeridiem, h12]
    · left
      simp [specMeridiem, h12]
  · exact fun parsed nc fn hres => handleConvert_filename parsed c nc fn hres

/-- C3 witness: the concrete test clock. -/
theorem C3_filename_format_witness :
    generateFilename testClock = specFilename testClock ∧
    1 ≤ specHour12 testClock.getHours ∧ specHour12 testClock.getHours ≤ 12 ∧
    isPre ['0'] (Nat.repr (specHour12 testClock.getHours)).data = false ∧
    (padStart 2 '0' (Nat.repr testClock.getMinutes)).length = 2 ∧
    (specMeridiem testClock.getHours = "am" ∨ specMeridiem testClock.getHours = "pm") ∧
    (∀ parsed nc fn, handleConvert parsed testClock = .success nc fn →
      fn = generateFilename testClock) :=
  C3_filename_format testClock (by decide) (by decide)

/-- C4: dispatch priority of the handler: OPTIONS always gets the
body-less 204 with only the CORS headers; otherwise GET / gets the
health response; otherwise POST /convert runs convert; every other
method/path combination gets the 404 body. -/
theorem C4_dispatch (req : RequestModel) (c : Clock) :
    (req.method = "OPTIONS" →
      handler req c = { status := 204, body := none, headers := corsHeaders }) ∧
    (req.pathname = "/" → req.method = "GET" →
      handler req c =
        { status := 200, body := some (healthBody c),
          headers := ("Content-Type", "application/json") :: corsHeaders }) ∧
    (req.pathname = "/convert" → req.method = "POST" →
      handler req c =
        { status := match handleConvert req.jsonBody c with
            | .success _ _ => 200
            | .failure _ => 400,
          body := some (convertResultToJson (handleConvert req.jsonBody c)),
          headers := ("Content-Type", "application/json") :: corsHeaders }) ∧
    (req.method ≠ "OPTIONS" → ¬(req.pathname = "/" ∧ req.method = "GET") →
      ¬(req.pathname = "/convert" ∧ req.method = "POST") →
      handler req c =
        { status := 404, body := some notFoundBody,
          headers := ("Content-Type", "application/json") :: corsHeaders }) := by
  refine ⟨?_, ?_, ?_, ?_⟩
  · intro h1
    rw [handler, if_pos h1]
  · intro hp hm
    have h1 : ¬ req.method = "OPTIONS" := by
      rw [hm]
      decide
    rw [handler, if_neg h1, if_pos ⟨hp, hm⟩]
  · intro hp hm
    have h1 : ¬ req.method = "OPTIONS" := by
      rw [hm]
      decide
    have h2 : ¬(req.pathname = "/" ∧ req.method = "GET") := by
      rintro ⟨hpp, _⟩
      rw [hp] at hpp
      exact absurd hpp (by decide)
    rw [handler, if_neg h1, if_neg h2, if_pos ⟨hp, hm⟩]
  · intro h1 h2 h3
    rw [handler, if_neg h1, if_neg h2, if_neg h3]

/-- C4 witness: each dispatch branch at a concrete request. -/
theorem C4_dispatch_witness :
    (handler { method := "OPTIONS", pathname := "/convert", jsonBody := .error "e" } testClock =
      { status := 204, body := none, headers := corsHeaders }) ∧
    (handler { method := "GET", pathname := "/", jsonBody := .error "e" } testClock =
      { status := 200, body := some (healthBody testClock),
        headers := ("Content-Type", "application/json") :: corsHeaders }) ∧
    (handler { method := "POST", pathname := "/convert", jsonBody := .error "boom" } testClock =
      { status := match handleConvert (.error "boom") testClock with
          | .success _ _ => 200
          | .failure _ => 400,
        body := some (convertResultToJson (handleConvert (.error "boom") testClock)),
        headers := ("Content-Type", "application/json") :: corsHeaders }) ∧
    (handler { method := "GET", pathname := "/unknown", jsonBody := .error "e" } testClock =
      { status := 404, body := some notFoundBody,
        headers := ("Content-Type", "application/json") :: corsHeaders }) :=
  ⟨(C4_dispatch { method := "OPTIONS", pathname := "/convert", jsonBody := .error "e" }
      testClock).1 rfl,
   (C4_dispatch { method := "GET", pathname := "/", jsonBody := .error "e" }
      testClock).2.1 rfl rfl,
   (C4_dispatch { method := "POST", pathname := "/convert", jsonBody := .error "boom" }
      testClock).2.2.1 rfl rfl,
   (C4_dispatch { method := "GET", pathname := "/unknown", jsonBody := .error "e" }
      testClock).2.2.2 (by decide) (by decide) (by decide)⟩

/-- C5: every POST /convert response is one of the two tagged body
shapes with status 200 exactly for the success shape and 400 for the
failure shape; a JSON parse error becomes the structured 400 carrying
the thrown message, and the TypeError thrown on a null body is caught
the same way. -/
theorem C5_convert_response_shape (req : RequestModel) (c : Clock)
    (hp : req.pathname = "/convert") (hm : req.method = "POST") :
    ((∃ nc fn, (handler req c).status = 200 ∧
        (handler req c).body = some (.jobj [("success", .jbool true),
          ("noteContent", .jstr nc), ("filename", .jstr fn)])) ∨
      (∃ e, (handler req c).status = 400 ∧
        (handler req c).body = some (.jobj [("success", .jbool false),
          ("error", .jstr e)]))) ∧
    (∀ msg, req.jsonBody = .error msg →
      (handler req c).status = 400 ∧
      (handler req c).body = some (.jobj [("success", .jbool false),
        ("error", .jstr msg)])) ∧
    (req.jsonBody = .ok .jnull →
      (handler req c).status = 400 ∧
      ∃ msg, (handler req c).body = some (.jobj [("success", .jbool false),
        ("error", .jstr msg)])) := by
  have h1 : ¬ req.method = "OPTIONS" := by
    rw [hm]
    decide
  have h2 : ¬(req.pathname = "/" ∧ req.method = "GET") := by
    rintro ⟨hpp, _⟩
    rw [hp] at hpp
    exact absurd hpp (by decide)
  have hh : handler req c =
      { status := match handleConvert req.jsonBody c with
          | .success _ _ => 200
          | .failure _ => 400,
        body := some (convertResultToJson (handleConvert req.jsonBody c)),
        headers := ("Content-Type", "application/json") :: corsHeaders } := by
    rw [handler, if_neg h1, if_neg h2, if_pos ⟨hp, hm⟩]
  refine ⟨?_, ?_, ?_⟩
  · cases hr : handleConvert req.jsonBody c with
    | success nc fn =>
      left
      exact ⟨nc, fn, by simp [hh, hr], by simp [hh, hr, convertResultToJson]⟩
    | failure e =>
      right
      exact ⟨e, by simp [hh, hr], by simp [hh, hr, convertResultToJson]⟩
  · intro msg hmsg
    have hr : handleConvert req.jsonBody c = .failure msg := by
      rw [hmsg]
      rfl
    exact ⟨by simp [hh, hr], by simp [hh, hr, convertResultToJson]⟩
  · intro hnull
    have hr : handleConvert req.jsonBody c =
        .failure ("null is not an object (evaluating 'body." ++ "text" ++ "')") := by
      rw [hnull]
      rfl
    exact ⟨by simp [hh, hr],
      ("null is not an object (evaluating 'body." ++ "text" ++ "')"),
      by simp [hh, hr, convertResultToJson]⟩

/-- C5 witness: a parse failure at a concrete request. -/
theorem C5_convert_response_shape_witness :
    ((∃ nc fn,
        (handler { method := "POST", pathname := "/convert", jsonBody := .error "Unexpected token" }
            testClock).status = 200 ∧
        (handler { method := "POST", pathname := "/convert", jsonBody := .error "Unexpected token" }
            testClock).body = some (.jobj [("success", .jbool true),
          ("noteContent", .jstr nc), ("filename", .jstr fn)])) ∨
      (∃ e,
        (handler { method := "POST", pathname := "/convert", jsonBody := .error "Unexpected token" }
            testClock).status = 400 ∧
        (handler { method := "POST", pathname := "/convert", jsonBody := .error "Unexpected token" }
            testClock).body = some (.jobj [("success", .jbool false),
          ("error", .jstr e)]))) ∧
    (∀ msg,
      (Except.error msg : Except String JsonVal) = .error "Unexpected token" →
      (handler { method := "POST", pathname := "/convert", jsonBody := .error "Unexpected token" }
          testClock).status = 400 ∧
      (handler { method := "POST", pathname := "/convert", jsonBody := .error "Unexpected token" }
          testClock).body = some (.jobj [("success", .jbool false), ("error", .jstr msg)])) := by
  have h := C5_convert_response_shape
    { method := "POST", pathname := "/convert", jsonBody := .error "Unexpected token" }
    testClock rfl rfl
  exact ⟨h.1, fun msg hmsg => by
    cases hmsg
    exact h.2.1 "Unexpected token" rfl⟩

/-- C6: in a successful convert, the frontmatter source is the
request's (string-rendered) `source` value when present and truthy and
the literal default "superwhisper" when absent or falsy. -/
theorem C6_source_default (body : JsonVal) (s : String) (srcOpt : Option JsonVal)
    (c : Clock) (nc fn : String)
    (ht : getProp body "text" = .ok (some (.jstr s)))
    (hs : getProp body "source" = .ok srcOpt)
    (hres : handleConvert (.ok body) c = .success nc fn) :
    (∀ v, srcOpt = some v → truthy v = true →
      nc = specNoteContent c (jsToString v) (jsTrim s)) ∧
    ((srcOpt = none ∨ ∃ v, srcOpt = some v ∧ truthy v = false) →
      nc = specNoteContent c "superwhisper" (jsTrim s)) := by
  have h1 := (handleConvert_success_char body s srcOpt c nc fn ht hs hres).1
  constructor
  · intro v hv htv
    rw [h1, hv]
    simp [resolvedSource, htv]
  · intro hcase
    rcases hcase with h | ⟨v, hv, htv⟩
    · rw [h1, h]
      simp [resolvedSource]
    · rw [h1, hv]
      simp [resolvedSource, htv]

/-- C6 witness: a custom string source is passed through. -/
theorem C6_source_default_witness :
    (∀ v, (some (JsonVal.jstr "ios-dictation") : Option JsonVal) = some v →
      truthy v = true →
      "---\ntype: transcription\ncreated: 2026-01-29\nsource: ios-dictation\ntemplate_version: 1\nareas: []\nprojects: []\nsummary: \"\"\n---\n\nhello\n" =
        specNoteContent testClock (jsToString v) (jsTrim "hello")) ∧
    (((some (JsonVal.jstr "ios-dictation") : Option JsonVal) = none ∨
      ∃ v, (some (JsonVal.jstr "ios-dictation") : Option JsonVal) = some v ∧
        truthy v = false) →
      "---\ntype: transcription\ncreated: 2026-01-29\nsource: ios-dictation\ntemplate_version: 1\nareas: []\nprojects: []\nsummary: \"\"\n---\n\nhello\n" =
        specNoteContent testClock "superwhisper" (jsTrim "hello")) :=
  C6_source_default
    (.jobj [("text", .jstr "hello"), ("source", .jstr "ios-dictation")])
    "hello" (some (.jstr "ios-dictation")) testClock
    "---\ntype: transcription\ncreated: 2026-01-29\nsource: ios-dictation\ntemplate_version: 1\nareas: []\nprojects: []\nsummary: \"\"\n---\n\nhello\n"
    "🎤 2026-01-28 6-30pm" rfl rfl (by decide)

/-- The headers of every response depend only on whether the request
was a preflight. -/
theorem handler_headers_eq (req : RequestModel) (c : Clock) :
    (handler req c).headers =
      if req.method = "OPTIONS" then corsHeaders
      else ("Content-Type", "application/json") :: corsHeaders := by
  rw [handler]
  by_cases h1 : req.method = "OPTIONS"
  · rw [if_pos h1, if_pos h1]
  · rw [if_neg h1, if_neg h1]
    split
    · rfl
    · split <;> rfl

/-- C7: every response carries the three CORS headers; the preflight
response carries exactly the CORS headers and nothing else, and every
other branch also carries Content-Type: application/json. -/
theorem C7_headers (req : RequestModel) (c : Clock) :
    (("Access-Control-Allow-Origin", "*") ∈ (handler req c).headers) ∧
    (("Access-Control-Allow-Methods", "GET, POST, OPTIONS") ∈ (handler req c).headers) ∧
    (("Access-Control-Allow-Headers", "Content-Type") ∈ (handler req c).headers) ∧
    (req.method = "OPTIONS" → (handler req c).headers = corsHeaders) ∧
    (req.method ≠ "OPTIONS" →
      ("Content-Type", "application/json") ∈ (handler req c).headers) := by
  by_cases h1 : req.method = "OPTIONS" <;>
    simp [handler_headers_eq, h1, corsHeaders]

/-- C7 witness: preflight headers are exactly the CORS headers, and
concrete non-preflight responses carry the CORS headers and the JSON
content type. -/
theorem C7_headers_witness :
    (handler { method := "OPTIONS", pathname := "/", jsonBody := .error "e" } testClock).headers =
      corsHeaders ∧
    ("Content-Type", "application/json") ∈
      (handler { method := "GET", pathname := "/", jsonBody := .error "e" } testClock).headers ∧
    ("Access-Control-Allow-Origin", "*") ∈
      (handler { method := "GET", pathname := "/unknown", jsonBody := .error "e" } testClock).headers :=
  ⟨(C7_headers { method := "OPTIONS", pathname := "/", jsonBody := .error "e" }
      testClock).2.2.2.1 rfl,
   (C7_headers { method := "GET", pathname := "/", jsonBody := .error "e" }
      testClock).2.2.2.2 (by decide),
   (C7_headers { method := "GET", pathname := "/unknown", jsonBody := .error "e" }
      testClock).1⟩

/-- C8 counterexample: a set but non-numeric port value such as "abc"
is passed through by `process.env.PORT || 3000`, not replaced by the
default 3000 as the claim requires for invalid values. -/
theorem C8_counterexample :
    PORT (some "abc") = .inl "abc" ∧ PORT (some "abc") ≠ .inr 3000 := by
  refine ⟨rfl, ?_⟩
  decide

/-- C8 (amended): the default 3000 is used exactly when the variable
is unset or set to the empty string; every other value — numeric or
not — is passed through unvalidated. -/
theorem C8_port_resolution (s : String) (h : s ≠ "") :
    PORT none = .inr 3000 ∧ PORT (some "") = .inr 3000 ∧ PORT (some s) = .inl s := by
  refine ⟨rfl, rfl, ?_⟩
  simp [PORT, h]

/-- C8 witness: a numeric string is passed through. -/
theorem C8_port_resolution_witness :
    PORT none = .inr 3000 ∧ PORT (some "") = .inr 3000 ∧
    PORT (some "8080") = .inl "8080" :=
  C8_port_resolution "8080" (by decide)

/-- C9: in one successful convert the frontmatter date is assembled
from the clock's UTC components while the filename is assembled from
its local components, and there is a valid clock reading (the UTC
instant 2026-01-29T00:30Z seen in a UTC-6 zone) at which the two
calendar dates of one response differ. -/
theorem C9_utc_local_date (body : JsonVal) (s : String) (srcOpt : Option JsonVal)
    (c : Clock) (nc fn : String)
    (ht : getProp body "text" = .ok (some (.jstr s)))
    (hs : getProp body "source" = .ok srcOpt)
    (hres : handleConvert (.ok body) c = .success nc fn) :
    nc = specNoteContent c (resolvedSource srcOpt) (jsTrim s) ∧
    fn = "🎤 " ++ specLocalDate c ++ " " ++
      Nat.repr (specHour12 c.getHours) ++ "-" ++
      padStart 2 '0' (Nat.repr c.getMinutes) ++ specMeridiem c.getHours ∧
    ∃ c2 : Clock, c2.Valid ∧ specDate c2 ≠ specLocalDate c2 ∧
      handleConvert (.ok (.jobj [("text", .jstr "hi")])) c2 =
        .success (specNoteContent c2 "superwhisper" "hi") (specFilename c2) := by
  have h1 := handleConvert_success_char body s srcOpt c nc fn ht hs hres
  refine ⟨h1.1, ?_, testClock, ?_, ?_, ?_⟩
  · rw [h1.2.1]
    rfl
  · unfold Clock.Valid
    decide
  · decide
  · decide

/-- C9 witness: the concrete request `{"text":"hi"}` at the test
clock, whose note is dated 2026-01-29 (UTC) while its filename is
dated 2026-01-28 (local). -/
theorem C9_utc_local_date_witness :
    "---\ntype: transcription\ncreated: 2026-01-29\nsource: superwhisper\ntemplate_version: 1\nareas: []\nprojects: []\nsummary: \"\"\n---\n\nhi\n" =
      specNoteContent testClock (resolvedSource none) (jsTrim "hi") ∧
    "🎤 2026-01-28 6-30pm" = "🎤 " ++ specLocalDate testClock ++ " " ++
      Nat.repr (specHour12 testClock.getHours) ++ "-" ++
      padStart 2 '0' (Nat.repr testClock.getMinutes) ++ specMeridiem testClock.getHours ∧
    ∃ c2 : Clock, c2.Valid ∧ specDate c2 ≠ specLocalDate c2 ∧
      handleConvert (.ok (.jobj [("text", .jstr "hi")])) c2 =
        .success (specNoteContent c2 "superwhisper" "hi") (specFilename c2) :=
  C9_utc_local_date (.jobj [("text", .jstr "hi")]) "hi" none testClock
    "---\ntype: transcription\ncreated: 2026-01-29\nsource: superwhisper\ntemplate_version: 1\nareas: []\nprojects: []\nsummary: \"\"\n---\n\nhi\n"
    "🎤 2026-01-28 6-30pm" rfl rfl (by decide)

/-- C10: the `source` field's type is never checked: any truthy JSON
value of any type is accepted, the convert succeeds with HTTP 200, and
the value's JavaScript string rendering is interpolated directly into
the frontmatter source line with no escaping. -/
theorem C10_source_type_unchecked (body : JsonVal) (s : String) (v : JsonVal) (c : Clock)
    (ht : getProp body "text" = .ok (some (.jstr s)))
    (hs : getProp body "source" = .ok (some v))
    (hne : s ≠ "") (htr : jsTrim s ≠ "") (htv : truthy v = true) :
    handleConvert (.ok body) c =
      .success (specNoteContent c (jsToString v) (jsTrim s)) (specFilename c) ∧
    (handler { method := "POST", pathname := "/convert", jsonBody := .ok body } c).status
      = 200 := by
  have h1 := handleConvert_success_eq body s (some v) c ht hs hne htr
  have h2 : resolvedSource (some v) = jsToString v := by
    simp [resolvedSource, htv]
  rw [h2] at h1
  refine ⟨h1, ?_⟩
  have hm1 : ¬({ method := "POST", pathname := "/convert", jsonBody := Except.ok body : RequestModel }).method = "OPTIONS" := by
    intro h
    simp at h
  have hm2 : ¬(({ method := "POST", pathname := "/convert", jsonBody := Except.ok body : RequestModel }).pathname = "/" ∧ ({ method := "POST", pathname := "/convert", jsonBody := Except.ok body : RequestModel }).method = "GET") := by
    rintro ⟨h, _⟩
    simp at h
  rw [handler, if_neg hm1, if_neg hm2, if_pos ⟨rfl, rfl⟩]
  simp [h1]

/-- C10 witness: a request whose source is the (truthy) empty object,
rendered as "[object Object]" in the frontmatter. -/
theorem C10_source_type_unchecked_witness :
    handleConvert (.ok (.jobj [("text", .jstr "hello"), ("source", .jobj [])])) testClock =
      .success (specNoteContent testClock (jsToString (.jobj [])) (jsTrim "hello"))
        (specFilename testClock) ∧
    (handler { method := "POST", pathname := "/convert", jsonBody := .ok (.jobj [("text", .jstr "hello"), ("source", .jobj [])]) } testClock).status = 200 :=
  C10_source_type_unchecked (.jobj [("text", .jstr "hello"), ("source", .jobj [])])
    "hello" (.jobj []) testClock rfl rfl (by decide) (by decide) rfl
